import Mathlib

/-!
Shallow embedding of the video engagement tracker implemented in
src/src/components/VideoPlayer.tsx: the Progress Store built on
localStorage (getSavedProgress, saveProgress, clearProgress), the four
per-backend unlock polling callbacks (trackLocalVideoProgress,
trackVideoProgress, trackVimeoProgress, trackGoogleDriveProgress), the
ended and pause event handlers, the configuration loader
loadVideoConfig, the YouTube id extractor getYouTubeVideoId, and the
unmount cleanup effects. Times (seconds and epoch milliseconds) are
rationals, JavaScript exceptions are Except values, and DOM or player
refs are Option values.
-/

/-- Source constant DEFAULT_VIDEO_URL (VideoPlayer.tsx line 18). -/
def DEFAULT_VIDEO_URL : String := "https://vimeo.com/1142286537"

/-- Source constant DEFAULT_VIDEO_TYPE (line 19). -/
def DEFAULT_VIDEO_TYPE : String := "vimeo"

/-- Source constant DEFAULT_BUTTON_DELAY (line 20), in seconds. -/
def DEFAULT_BUTTON_DELAY : ℚ := 180

/-- Source constant STORAGE_KEY (line 22). -/
def STORAGE_KEY : String := "video_progress"

/-- The VideoConfig record fetched from the backend (lines 10 to 16). -/
structure VideoConfig where
  id : Int
  video_url : String
  video_type : String
  video_path : Option String
  button_delay_seconds : ℚ
deriving DecidableEq

/-- A raw localStorage value under one key: either a string JSON.parse
rejects, or a parsed object whose time and timestamp fields may each be
absent. -/
inductive Entry
  | corrupt
  | parsed (time : Option ℚ) (timestamp : Option ℚ)
deriving DecidableEq

/-- The browser localStorage together with fault flags: each flag makes
the corresponding native operation throw, modelling quota errors or
disabled storage. -/
structure Storage where
  entries : List (String × Entry)
  getThrows : Bool
  setThrows : Bool
  removeThrows : Bool
deriving DecidableEq

/-- Lookup of a key in the key to value association list of the store. -/
def lookupEntry : List (String × Entry) → String → Option Entry
  | [], _ => none
  | kv :: rest, key => if kv.1 = key then some kv.2 else lookupEntry rest key

/-- Replace or append semantics of localStorage.setItem on the list. -/
def insertEntry : List (String × Entry) → String → Entry → List (String × Entry)
  | [], key, e => [(key, e)]
  | kv :: rest, key, e => if kv.1 = key then (key, e) :: rest else kv :: insertEntry rest key e

/-- Key removal semantics of localStorage.removeItem on the list. -/
def removeEntry (l : List (String × Entry)) (key : String) : List (String × Entry) :=
  l.filter (fun kv => kv.1 != key)

/-- localStorage.getItem under the fault model: throws when getThrows is
set, otherwise returns the entry stored under the key, if any. -/
def storageGetItem (s : Storage) (key : String) : Except Unit (Option Entry) :=
  if s.getThrows then .error () else .ok (lookupEntry s.entries key)

/-- localStorage.setItem under the fault model. -/
def storageSetItem (s : Storage) (key : String) (e : Entry) : Except Unit Storage :=
  if s.setThrows then .error () else .ok { s with entries := insertEntry s.entries key e }

/-- localStorage.removeItem under the fault model. -/
def storageRemoveItem (s : Storage) (key : String) : Except Unit Storage :=
  if s.removeThrows then .error () else .ok { s with entries := removeEntry s.entries key }

/-- The localStorage key video_progress_<identity> used by all three
store operations (lines 41, 52 and 58). -/
def storageKey (videoId : String) : String := STORAGE_KEY ++ "_" ++ videoId

/-- JavaScript x || d on an optional number: an absent or zero field
gives the default. -/
def jsOr (x : Option ℚ) (d : ℚ) : ℚ :=
  match x with
  | some v => if v = 0 then d else v
  | none => d

/-- JSON.parse of a stored entry: corrupt entries throw. -/
def parseEntry : Entry → Except Unit (Option ℚ × Option ℚ)
  | .corrupt => .error ()
  | .parsed t ts => .ok (t, ts)

/-- Body of the try block of getSavedProgress (lines 40 to 46): read the
key, and when a value is present parse it and return data.time || 0. -/
def getSavedProgressBody (s : Storage) (videoId : String) : Except Unit ℚ :=
  match storageGetItem s (storageKey videoId) with
  | .error e => .error e
  | .ok (some saved) =>
    match parseEntry saved with
    | .error e => .error e
    | .ok data => .ok (jsOr data.1 0)
  | .ok none => .ok 0

/-- getSavedProgress (lines 39 to 48): the try catch wrapper returns 0 on
any throw and when nothing usable is stored. -/
def getSavedProgress (s : Storage) (videoId : String) : ℚ :=
  match getSavedProgressBody s videoId with
  | .ok v => v
  | .error _ => 0

/-- Body of the try block of saveProgress (line 52): store the time and
the current wall clock timestamp under the namespaced key. -/
def saveProgressBody (s : Storage) (videoId : String) (time now : ℚ) : Except Unit Storage :=
  storageSetItem s (storageKey videoId) (.parsed (some time) (some now))

/-- saveProgress (lines 50 to 54): a throwing setItem is swallowed and
leaves the storage unchanged. -/
def saveProgress (s : Storage) (videoId : String) (time now : ℚ) : Storage :=
  match saveProgressBody s videoId time now with
  | .ok s2 => s2
  | .error _ => s

/-- Body of the try block of clearProgress (line 58). -/
def clearProgressBody (s : Storage) (videoId : String) : Except Unit Storage :=
  storageRemoveItem s (storageKey videoId)

/-- clearProgress (lines 56 to 60): a throwing removeItem is swallowed. -/
def clearProgress (s : Storage) (videoId : String) : Storage :=
  match clearProgressBody s videoId with
  | .ok s2 => s2
  | .error _ => s

/-- React state of the tracking session observed by this model: the
buttonEnabled state variable and how many times the outward
onButtonEnable callback has been invoked so far. -/
structure TrackState where
  buttonEnabled : Bool
  onButtonEnableCalls : Nat
deriving DecidableEq

/-- The unlock branch of every tracker: setButtonEnabled(true) followed
by onButtonEnable(). -/
def fireUnlock (s : TrackState) : TrackState :=
  { buttonEnabled := true, onButtonEnableCalls := s.onButtonEnableCalls + 1 }

/-- One 300 ms tick of the interval installed by trackLocalVideoProgress
(lines 298 to 307). localVideo carries currentTime of the video element
when the ref is attached; capturedButtonEnabled is the value of
buttonEnabled captured by the callback closure at interval creation,
which setButtonEnabled never rebinds. -/
def trackLocalVideoProgressTick (localVideo : Option ℚ) (videoConfig : Option VideoConfig)
    (capturedButtonEnabled : Bool) (s : TrackState) : TrackState :=
  match localVideo, videoConfig with
  | some currentTime, some cfg =>
    if cfg.button_delay_seconds ≤ currentTime ∧ capturedButtonEnabled = false then
      fireUnlock s
    else s
  | _, _ => s

/-- One tick of the interval installed by trackVideoProgress for the
YouTube backend (lines 475 to 484): runs only when the player ref
exposes getCurrentTime and getDuration, and compares the reported
position against the threshold. -/
def trackVideoProgressTick (player : Option ℚ) (videoConfig : Option VideoConfig)
    (capturedButtonEnabled : Bool) (s : TrackState) : TrackState :=
  match player with
  | some currentTime =>
    match videoConfig with
    | some cfg =>
      if cfg.button_delay_seconds ≤ currentTime ∧ capturedButtonEnabled = false then
        fireUnlock s
      else s
    | none => s
  | none => s

/-- One tick of the interval installed by trackVimeoProgress (lines 228
to 237): compares the wall clock quantity (Date.now() - startTime) /
1000 against the threshold; this code path never reads a playback
position from the Vimeo embed. -/
def trackVimeoProgressTick (startTime now : ℚ) (videoConfig : Option VideoConfig)
    (capturedButtonEnabled : Bool) (s : TrackState) : TrackState :=
  match videoConfig with
  | some cfg =>
    if cfg.button_delay_seconds ≤ (now - startTime) / 1000 ∧ capturedButtonEnabled = false then
      fireUnlock s
    else s
  | none => s

/-- One tick of the interval installed by trackGoogleDriveProgress
(lines 250 to 259): same wall clock comparison as the Vimeo tracker. -/
def trackGoogleDriveProgressTick (startTime now : ℚ) (videoConfig : Option VideoConfig)
    (capturedButtonEnabled : Bool) (s : TrackState) : TrackState :=
  match videoConfig with
  | some cfg =>
    if cfg.button_delay_seconds ≤ (now - startTime) / 1000 ∧ capturedButtonEnabled = false then
      fireUnlock s
    else s
  | none => s

/-- Modelled from the claim, not from the source: a Vimeo tracker tick
that compares a reported playback position of the hosted stream against
the threshold. The source tracker trackVimeoProgressTick uses the wall
clock instead; this definition exists only to state that divergence. -/
def trackVimeoProgressTickClaimed (reportedTime : ℚ) (videoConfig : Option VideoConfig)
    (capturedButtonEnabled : Bool) (s : TrackState) : TrackState :=
  match videoConfig with
  | some cfg =>
    if cfg.button_delay_seconds ≤ reportedTime ∧ capturedButtonEnabled = false then
      fireUnlock s
    else s
  | none => s

/-- A whole tracking session on the Vimeo backend: the interval is
created once by trackVimeoProgress (the trackingStartedRef latch stops
re-entry) and its callback runs at each poll tick, receiving Date.now()
of that tick. The callback closure captures videoConfig and
buttonEnabled from the render in which tracking started, where
buttonEnabled is false, and setButtonEnabled never rebinds that captured
constant, so every tick sees capturedButtonEnabled = false. -/
def runVimeoTracking (cfg : VideoConfig) (startTime : ℚ) (tickTimes : List ℚ) : TrackState :=
  tickTimes.foldl (fun s now => trackVimeoProgressTick startTime now (some cfg) false s)
    { buttonEnabled := false, onButtonEnableCalls := 0 }

/-- HTML video element or YouTube player as observed by the handlers:
position in seconds and whether it is playing. -/
structure VideoEl where
  currentTime : ℚ
  playing : Bool
deriving DecidableEq

/-- video.play() and player.playVideo(). -/
def videoPlay (v : VideoEl) : VideoEl := { v with playing := true }

/-- Assignment to video.currentTime and player.seekTo. -/
def videoSeek (t : ℚ) (v : VideoEl) : VideoEl := { v with currentTime := t }

/-- State touched by the local video event handlers: the storage, the
localVideoRef ref and the currentVideoIdRef ref. -/
structure LocalPlayerCtx where
  storage : Storage
  localVideoRef : Option VideoEl
  currentVideoId : String
deriving DecidableEq

/-- handleLocalVideoEnded (lines 273 to 279): clear the persisted
progress for the current identity, seek to zero and play again. -/
def handleLocalVideoEnded (c : LocalPlayerCtx) : LocalPlayerCtx :=
  let st := clearProgress c.storage c.currentVideoId
  match c.localVideoRef with
  | some v =>
    { storage := st, localVideoRef := some (videoPlay (videoSeek 0 v)),
      currentVideoId := c.currentVideoId }
  | none => { storage := st, localVideoRef := none, currentVideoId := c.currentVideoId }

/-- handleLocalVideoPause (lines 281 to 288): save the position when the
video ref and an identity are present, then play again. The truthiness
test on currentVideoIdRef.current fails exactly on the empty string. -/
def handleLocalVideoPause (now : ℚ) (c : LocalPlayerCtx) : LocalPlayerCtx :=
  let st :=
    match c.localVideoRef with
    | some v =>
      if c.currentVideoId ≠ "" then saveProgress c.storage c.currentVideoId v.currentTime now
      else c.storage
    | none => c.storage
  match c.localVideoRef with
  | some v =>
    { storage := st, localVideoRef := some (videoPlay v), currentVideoId := c.currentVideoId }
  | none => { storage := st, localVideoRef := none, currentVideoId := c.currentVideoId }

/-- The ENDED branch of the YouTube onStateChange handler (lines 427 to
433): clear progress, seekTo(0), playVideo(). -/
def onYouTubeStateEnded (storage : Storage) (playerRef : Option VideoEl)
    (currentVideoId : String) : Storage × Option VideoEl :=
  let st := clearProgress storage currentVideoId
  match playerRef with
  | some p => (st, some (videoPlay (videoSeek 0 p)))
  | none => (st, none)

/-- The PAUSED branch of the YouTube onStateChange handler (lines 434 to
441): save the reported position, then playVideo(). -/
def onYouTubeStatePaused (now : ℚ) (storage : Storage) (playerRef : Option VideoEl)
    (currentVideoId : String) : Storage × Option VideoEl :=
  let st :=
    match playerRef with
    | some p =>
      if currentVideoId ≠ "" then saveProgress storage currentVideoId p.currentTime now
      else storage
    | none => storage
  match playerRef with
  | some p => (st, some (videoPlay p))
  | none => (st, none)

/-- The fallback configuration built inline in loadVideoConfig (lines
128 to 133 and 137 to 142). -/
def defaultConfig : VideoConfig :=
  { id := 0, video_url := DEFAULT_VIDEO_URL, video_type := DEFAULT_VIDEO_TYPE,
    video_path := none, button_delay_seconds := DEFAULT_BUTTON_DELAY }

/-- loadVideoConfig (lines 120 to 144) as a function of the outcome of
fetch followed by response.json(): a network or parse failure is the
error case, otherwise the optional video field of the payload. -/
def loadVideoConfig (fetchResult : Except Unit (Option VideoConfig)) : VideoConfig :=
  match fetchResult with
  | .ok (some video) => video
  | .ok none => defaultConfig
  | .error _ => defaultConfig

/-- JavaScript line terminators, which the dot of a regular expression
does not match. -/
def isLineTerm (c : Char) : Bool :=
  c = '\n' || c = '\r' || c = Char.ofNat 0x2028 || c = Char.ofNat 0x2029

/-- JavaScript word character class used in the user path alternative. -/
def isWordChar (c : Char) : Bool :=
  c.isAlpha || c.isDigit || c = '_'

/-- Consume an exact literal at the head of the input, returning the
rest on success. -/
def matchLit : List Char → List Char → Option (List Char)
  | [], rest => some rest
  | _ :: _, [] => none
  | c :: cs, d :: rest => if d = c then matchLit cs rest else none

/-- Alternative youtu.be/ of the extraction pattern in getYouTubeVideoId
(line 326): its unescaped dot matches any character except a line
terminator. -/
def matchYoutuBe (l : List Char) : Option (List Char) :=
  match matchLit [ 'y', 'o', 'u', 't', 'u' ] l with
  | some (c :: rest) => if isLineTerm c then none else matchLit [ 'b', 'e', '/' ] rest
  | _ => none

/-- Alternative slash u slash word character slash of the extraction
pattern. -/
def matchUserPath (l : List Char) : Option (List Char) :=
  match matchLit [ '/', 'u', '/' ] l with
  | some (c :: rest) => if isWordChar c then matchLit [ '/' ] rest else none
  | _ => none

/-- Group one of the extraction pattern: the five alternatives in source
order; returns the input remaining after the matched alternative. -/
def matchAlternative (l : List Char) : Option (List Char) :=
  match matchYoutuBe l with
  | some r => some r
  | none =>
    match matchLit [ 'v', '/' ] l with
    | some r => some r
    | none =>
      match matchUserPath l with
      | some r => some r
      | none =>
        match matchLit [ 'e', 'm', 'b', 'e', 'd', '/' ] l with
        | some r => some r
        | none => matchLit [ 'w', 'a', 't', 'c', 'h', '?' ] l

/-- Backtracking of the greedy leading dot star of the pattern: among
the start positions reachable without crossing a line terminator, pick
the last one where an alternative matches, since everything after the
alternative in the pattern can always succeed. -/
def scanAlt : List Char → Option (List Char)
  | [] => none
  | c :: rest =>
    if isLineTerm c then matchAlternative (c :: rest)
    else
      match scanAlt rest with
      | some r => some r
      | none => matchAlternative (c :: rest)

/-- Drop one optional literal character, as each greedy question mark
quantifier of the pattern does when nothing after it can fail. -/
def consumeOpt (c : Char) (l : List Char) : List Char :=
  match l with
  | d :: rest => if d = c then rest else l
  | [] => []

/-- Character class of group seven of the pattern: everything except
hash, ampersand and question mark. -/
def isIdChar (c : Char) : Bool :=
  !(c = '#' || c = '&' || c = '?')

/-- getYouTubeVideoId (lines 325 to 329): match the extraction pattern
against the url and return group seven exactly when it has eleven
characters. -/
def getYouTubeVideoId (url : String) : Option String :=
  match scanAlt url.data with
  | none => none
  | some rest =>
    let g7 := (consumeOpt '=' (consumeOpt 'v' (consumeOpt '?' rest))).takeWhile isIdChar
    if g7.length = 11 then some (String.mk g7) else none

/-- Ids of the timers currently scheduled in the browser event loop. -/
structure TimerEnv where
  live : List Nat
deriving DecidableEq

/-- Membership of a timer id in the scheduled set. -/
def memNat (id : Nat) : List Nat → Bool
  | [] => false
  | a :: t => a == id || memNat id t

/-- clearInterval or clearTimeout on one timer id. -/
def clearTimer (id : Nat) (e : TimerEnv) : TimerEnv :=
  { live := e.live.filter (fun x => x != id) }

/-- The three timer refs of the component: progressIntervalRef,
saveProgressIntervalRef and hudOverlayTimeoutRef. -/
structure ControllerRefs where
  progressInterval : Option Nat
  saveProgressInterval : Option Nat
  hudOverlayTimeout : Option Nat
deriving DecidableEq

/-- The if ref.current then clear pattern used by both cleanup effects. -/
def clearIfSet (r : Option Nat) (e : TimerEnv) : TimerEnv :=
  match r with
  | some id => clearTimer id e
  | none => e

/-- Cleanup returned by the mount effect (lines 65 to 72): clears the
hud overlay timeout and the save interval when set. -/
def mountEffectCleanup (r : ControllerRefs) (e : TimerEnv) : TimerEnv :=
  clearIfSet r.saveProgressInterval (clearIfSet r.hudOverlayTimeout e)

/-- Cleanup returned by the tracking effect (lines 487 to 496): clears
the unlock poll interval and the save interval when set. -/
def trackingEffectCleanup (r : ControllerRefs) (e : TimerEnv) : TimerEnv :=
  clearIfSet r.saveProgressInterval (clearIfSet r.progressInterval e)

/-- removeEventListener on beforeunload, the cleanup of the effect at
line 117. -/
def beforeUnloadCleanup (_registered : Bool) : Bool := false

/-- Unmount runs every effect cleanup of the component. -/
def unmountTeardown (r : ControllerRefs) (e : TimerEnv) : TimerEnv :=
  trackingEffectCleanup r (mountEffectCleanup r e)

/-- Whether the timer held by a ref is still scheduled. -/
def timerLive (r : Option Nat) (e : TimerEnv) : Bool :=
  match r with
  | some id => memNat id e.live
  | none => false

/-- Progress store writes over n further save interval periods: the save
callback of the component can only run while its interval is still
scheduled. -/
def storeWritesOver (r : ControllerRefs) (e : TimerEnv) (n : Nat) : Nat :=
  if timerLive r.saveProgressInterval e then n else 0

/-- Outward unlock callback invocations over n further poll periods: the
poll callback of the component can only run while its interval is still
scheduled. -/
def unlockCallsOver (r : ControllerRefs) (e : TimerEnv) (n : Nat) : Nat :=
  if timerLive r.progressInterval e then n else 0

theorem lookupEntry_insertEntry_self (l : List (String × Entry)) (k : String) (e : Entry) :
    lookupEntry (insertEntry l k e) k = some e := by
  induction l with
  | nil => simp [insertEntry, lookupEntry]
  | cons kv rest ih =>
    by_cases h : kv.1 = k
    · simp [insertEntry, lookupEntry, h]
    · simp [insertEntry, lookupEntry, h, ih]

theorem lookupEntry_insertEntry_ne (l : List (String × Entry)) (k k2 : String) (e : Entry)
    (h : k2 ≠ k) : lookupEntry (insertEntry l k e) k2 = lookupEntry l k2 := by
  induction l with
  | nil =>
    simp only [insertEntry, lookupEntry]
    rw [if_neg (fun hh => h hh.symm)]
  | cons kv rest ih =>
    by_cases hk : kv.1 = k
    · simp only [insertEntry, if_pos hk, lookupEntry]
      rw [if_neg (fun hh => h hh.symm), if_neg (by rw [hk]; exact fun hh => h hh.symm)]
    · simp only [insertEntry, if_neg hk, lookupEntry, ih]

theorem lookupEntry_removeEntry_self (l : List (String × Entry)) (k : String) :
    lookupEntry (removeEntry l k) k = none := by
  induction l with
  | nil => simp [removeEntry, lookupEntry]
  | cons kv rest ih =>
    by_cases h : kv.1 = k
    · simpa [removeEntry, List.filter_cons, h] using ih
    · simpa [removeEntry, List.filter_cons, h, lookupEntry] using ih

theorem storageKey_inj (a b : String) (h : storageKey a = storageKey b) : a = b := by
  have hd : (storageKey a).data = (storageKey b).data := congrArg String.data h
  simp only [storageKey, String.data_append] at hd
  exact String.ext (List.append_cancel_left hd)

theorem getSavedProgress_of_getThrows (s : Storage) (videoId : String)
    (h : s.getThrows = true) : getSavedProgress s videoId = 0 := by
  simp [getSavedProgress, getSavedProgressBody, storageGetItem, h]

/-- C6: every Progress Store operation swallows storage exceptions:
getSavedProgress returns 0 when the entry is absent or corrupt (and when
getItem itself throws), a throwing setItem leaves saveProgress as the
identity on the storage so its caller is unaffected, and a throwing
removeItem leaves clearProgress as the identity. -/
theorem progress_store_swallows_errors :
    (∀ (s : Storage) (id2 : String), lookupEntry s.entries (storageKey id2) = none →
      getSavedProgress s id2 = 0) ∧
    (∀ (s : Storage) (id2 : String), lookupEntry s.entries (storageKey id2) = some Entry.corrupt →
      getSavedProgress s id2 = 0) ∧
    (∀ (s : Storage) (id2 : String) (t now : ℚ), s.setThrows = true →
      saveProgress s id2 t now = s) ∧
    (∀ (s : Storage) (id2 : String), s.removeThrows = true → clearProgress s id2 = s) := by
  refine ⟨?_, ?_, ?_, ?_⟩
  · intro s id2 h
    cases hg : s.getThrows
    · simp [getSavedProgress, getSavedProgressBody, storageGetItem, hg, h]
    · exact getSavedProgress_of_getThrows s id2 hg
  · intro s id2 h
    cases hg : s.getThrows
    · simp [getSavedProgress, getSavedProgressBody, storageGetItem, hg, h, parseEntry]
    · exact getSavedProgress_of_getThrows s id2 hg
  · intro s id2 t now h
    simp [saveProgress, saveProgressBody, storageSetItem, h]
  · intro s id2 h
    simp [clearProgress, clearProgressBody, storageRemoveItem, h]

/-- Witness for C6 at concrete inputs: an empty store yields 0 and a
store whose setItem throws is returned unchanged by saveProgress. -/
theorem progress_store_swallows_errors_witness :
    getSavedProgress ⟨[], false, false, false⟩ "vid1" = 0 ∧
    saveProgress ⟨[], false, true, false⟩ "vid1" 5 99 = ⟨[], false, true, false⟩ :=
  ⟨progress_store_swallows_errors.1 ⟨[], false, false, false⟩ "vid1" rfl,
   progress_store_swallows_errors.2.2.1 ⟨[], false, true, false⟩ "vid1" 5 99 rfl⟩

/-- C7: round trip and namespacing of the Progress Store. Reading after
saveProgress on a non-throwing store returns the saved value; reading
after clearProgress returns 0; and saving under one identity never
changes the value read under a different identity, because each record
lives under its own key video_progress_<identity>. -/
theorem progress_store_roundtrip_namespacing :
    (∀ (s : Storage) (id2 : String) (v now : ℚ), s.setThrows = false → s.getThrows = false →
      getSavedProgress (saveProgress s id2 v now) id2 = v) ∧
    (∀ (s : Storage) (id2 : String), s.removeThrows = false → s.getThrows = false →
      getSavedProgress (clearProgress s id2) id2 = 0) ∧
    (∀ (s : Storage) (idA idB : String) (v now : ℚ), idA ≠ idB →
      getSavedProgress (saveProgress s idA v now) idB = getSavedProgress s idB) := by
  refine ⟨?_, ?_, ?_⟩
  · intro s id2 v now hset hget
    by_cases hv : v = 0 <;>
      simp [getSavedProgress, getSavedProgressBody, storageGetItem, saveProgress,
        saveProgressBody, storageSetItem, hset, hget, lookupEntry_insertEntry_self,
        parseEntry, jsOr, hv]
  · intro s id2 hrm hget
    simp [getSavedProgress, getSavedProgressBody, storageGetItem, clearProgress,
      clearProgressBody, storageRemoveItem, hrm, hget, lookupEntry_removeEntry_self]
  · intro s idA idB v now hne
    cases hset : s.setThrows
    · have hkey : storageKey idB ≠ storageKey idA :=
        fun hk => hne (storageKey_inj idA idB hk.symm)
      simp [getSavedProgress, getSavedProgressBody, storageGetItem, saveProgress,
        saveProgressBody, storageSetItem, hset,
        lookupEntry_insertEntry_ne s.entries (storageKey idA) (storageKey idB) _ hkey]
    · simp [saveProgress, saveProgressBody, storageSetItem, hset]

/-- Witness for C7 at concrete inputs: a save of 42 reads back as 42, a
save under one identity leaves a different identity at 0, and a clear
brings the value back to 0. -/
theorem progress_store_roundtrip_namespacing_witness :
    getSavedProgress (saveProgress ⟨[], false, false, false⟩ "idA" 42 7) "idA" = 42 ∧
    getSavedProgress (saveProgress ⟨[], false, false, false⟩ "idA" 10 7) "idB" =
      getSavedProgress ⟨[], false, false, false⟩ "idB" ∧
    getSavedProgress
      (clearProgress ⟨[(storageKey "idA", Entry.parsed (some 42) (some 7))],
        false, false, false⟩ "idA") "idA" = 0 :=
  ⟨progress_store_roundtrip_namespacing.1 ⟨[], false, false, false⟩ "idA" 42 7 rfl rfl,
   progress_store_roundtrip_namespacing.2.2 ⟨[], false, false, false⟩ "idA" "idB" 10 7
     (by decide),
   progress_store_roundtrip_namespacing.2.1
     ⟨[(storageKey "idA", Entry.parsed (some 42) (some 7))], false, false, false⟩
     "idA" rfl rfl⟩

/-- C10: saveProgress persists both the elapsed time and a wall clock
timestamp on every write, while getSavedProgress never inspects the
timestamp: the value read back after a save is identical no matter which
timestamp accompanied the write, so a resume point never expires. -/
theorem saved_progress_never_expires :
    (∀ (s : Storage) (id2 : String) (t now now2 : ℚ),
      getSavedProgress (saveProgress s id2 t now) id2 =
        getSavedProgress (saveProgress s id2 t now2) id2) ∧
    (∀ (s : Storage) (id2 : String) (t now : ℚ), s.setThrows = false →
      lookupEntry (saveProgress s id2 t now).entries (storageKey id2) =
        some (Entry.parsed (some t) (some now))) := by
  refine ⟨?_, ?_⟩
  · intro s id2 t now now2
    cases hset : s.setThrows <;> cases hget : s.getThrows <;>
      simp [getSavedProgress, getSavedProgressBody, storageGetItem, saveProgress,
        saveProgressBody, storageSetItem, hset, hget, lookupEntry_insertEntry_self, parseEntry]
  · intro s id2 t now hset
    simp [saveProgress, saveProgressBody, storageSetItem, hset, lookupEntry_insertEntry_self]

/-- Witness for C10 at concrete inputs: reads after saves with two very
different timestamps agree, and the stored record carries both fields. -/
theorem saved_progress_never_expires_witness :
    getSavedProgress (saveProgress ⟨[], false, false, false⟩ "vid1" 42 0) "vid1" =
      getSavedProgress (saveProgress ⟨[], false, false, false⟩ "vid1" 42 99999999) "vid1" ∧
    lookupEntry (saveProgress ⟨[], false, false, false⟩ "vid1" 42 7).entries
      (storageKey "vid1") = some (Entry.parsed (some 42) (some 7)) :=
  ⟨saved_progress_never_expires.1 ⟨[], false, false, false⟩ "vid1" 42 0 99999999,
   saved_progress_never_expires.2 ⟨[], false, false, false⟩ "vid1" 42 7 rfl⟩

/-- C1 fails on the code: because the setInterval callback of
trackVimeoProgress closes over the buttonEnabled binding of the render
in which tracking started, and setButtonEnabled never rebinds that
captured constant, the guard on the unlock branch is always true, so
onButtonEnable is invoked on every 300 ms tick whose wall clock elapsed
is at or past the threshold, not exactly once. With threshold 5 seconds
and two consecutive poll ticks at elapsed 5.0 s and 5.3 s, both ticks
reach the threshold and the callback fires twice. -/
theorem trackVimeo_unlock_fires_on_every_tick_past_threshold :
    (5 : ℚ) ≤ ((5000 : ℚ) - 0) / 1000 ∧ (5 : ℚ) ≤ ((5300 : ℚ) - 0) / 1000 ∧
    (runVimeoTracking ⟨0, DEFAULT_VIDEO_URL, "vimeo", none, 5⟩ 0
      [5000, 5300]).onButtonEnableCalls = 2 := by
  refine ⟨by norm_num, by norm_num, ?_⟩
  norm_num [runVimeoTracking, List.foldl, trackVimeoProgressTick, fireUnlock]

/-- C2 fails as stated on the Vimeo backend: at threshold 180 the hosted
stream reports position 200, past the threshold, yet the actual Vimeo
tracker does not fire on a tick only one wall clock second after
tracking started, while the tracker the claim describes, which compares
the reported position, does fire. -/
theorem trackVimeo_ignores_reported_position :
    (180 : ℚ) ≤ 200 ∧
    (trackVimeoProgressTickClaimed 200 (some ⟨0, DEFAULT_VIDEO_URL, "vimeo", none, 180⟩)
      false ⟨false, 0⟩).onButtonEnableCalls = 1 ∧
    (trackVimeoProgressTick 0 1000 (some ⟨0, DEFAULT_VIDEO_URL, "vimeo", none, 180⟩)
      false ⟨false, 0⟩).onButtonEnableCalls = 0 := by
  refine ⟨by norm_num, ?_, ?_⟩
  · norm_num [trackVimeoProgressTickClaimed, fireUnlock]
  · norm_num [trackVimeoProgressTick, fireUnlock]

/-- C2 amended: the threshold comparison uses the reported playback
position for the direct file backend (video.currentTime) and for the
YouTube backend (player.getCurrentTime()), while both the Vimeo embed
and the Google Drive embed compare the wall clock elapsed since tracking
started; each tracker fires on a tick exactly when its own time source
is at or past the configured threshold. -/
theorem threshold_time_source_per_backend (cfg : VideoConfig) (ct start now : ℚ)
    (s : TrackState) :
    ((trackLocalVideoProgressTick (some ct) (some cfg) false s).onButtonEnableCalls =
      s.onButtonEnableCalls + 1 ↔ cfg.button_delay_seconds ≤ ct) ∧
    ((trackVideoProgressTick (some ct) (some cfg) false s).onButtonEnableCalls =
      s.onButtonEnableCalls + 1 ↔ cfg.button_delay_seconds ≤ ct) ∧
    ((trackVimeoProgressTick start now (some cfg) false s).onButtonEnableCalls =
      s.onButtonEnableCalls + 1 ↔ cfg.button_delay_seconds ≤ (now - start) / 1000) ∧
    ((trackGoogleDriveProgressTick start now (some cfg) false s).onButtonEnableCalls =
      s.onButtonEnableCalls + 1 ↔ cfg.button_delay_seconds ≤ (now - start) / 1000) := by
  refine ⟨?_, ?_, ?_, ?_⟩ <;>
  · first
    | (simp only [trackLocalVideoProgressTick]; split <;> simp_all [fireUnlock])
    | (simp only [trackVideoProgressTick]; split <;> simp_all [fireUnlock])
    | (simp only [trackVimeoProgressTick]; split <;> simp_all [fireUnlock])
    | (simp only [trackGoogleDriveProgressTick]; split <;> simp_all [fireUnlock])

/-- C5: when the configuration fetch fails with a network error or an
unparseable response, or succeeds with a null video field, the
controller falls back to the hardcoded default configuration: the
default Vimeo url, video type vimeo, and a 180 second unlock threshold. -/
theorem loadVideoConfig_fallback_default (r : Except Unit (Option VideoConfig))
    (h : r = Except.error () ∨ r = Except.ok none) :
    loadVideoConfig r = defaultConfig ∧
    (loadVideoConfig r).video_url = DEFAULT_VIDEO_URL ∧
    (loadVideoConfig r).video_type = "vimeo" ∧
    (loadVideoConfig r).button_delay_seconds = 180 := by
  rcases h with h | h <;> subst h <;>
    exact ⟨rfl, rfl, rfl, rfl⟩

/-- Witness for C5 at a concrete input: a payload whose video field is
null produces exactly the default configuration. -/
theorem loadVideoConfig_fallback_default_witness :
    loadVideoConfig (Except.ok none) = defaultConfig ∧
    (loadVideoConfig (Except.ok none)).video_url = DEFAULT_VIDEO_URL ∧
    (loadVideoConfig (Except.ok none)).video_type = "vimeo" ∧
    (loadVideoConfig (Except.ok none)).button_delay_seconds = 180 :=
  loadVideoConfig_fallback_default (Except.ok none) (Or.inr rfl)

/-- C3: on natural end of media, with a working storage, both ended
handlers clear the persisted record of the current identity, seek the
player back to zero and resume playback: after the handler runs no
record is stored under the identity, the position is zero and the player
is playing, never stopped or finished. -/
theorem ended_clears_progress_seeks_zero_resumes
    (c : LocalPlayerCtx) (v : VideoEl) (st : Storage) (p : VideoEl) (pid : String)
    (href : c.localVideoRef = some v) (hrm : c.storage.removeThrows = false)
    (hrm2 : st.removeThrows = false) :
    lookupEntry (handleLocalVideoEnded c).storage.entries (storageKey c.currentVideoId) =
      none ∧
    (handleLocalVideoEnded c).localVideoRef = some ⟨0, true⟩ ∧
    lookupEntry (onYouTubeStateEnded st (some p) pid).1.entries (storageKey pid) = none ∧
    (onYouTubeStateEnded st (some p) pid).2 = some ⟨0, true⟩ := by
  refine ⟨?_, ?_, ?_, ?_⟩
  · simp [handleLocalVideoEnded, href, clearProgress, clearProgressBody, storageRemoveItem,
      hrm, lookupEntry_removeEntry_self]
  · simp [handleLocalVideoEnded, href, videoPlay, videoSeek]
  · simp [onYouTubeStateEnded, clearProgress, clearProgressBody, storageRemoveItem, hrm2,
      lookupEntry_removeEntry_self]
  · simp [onYouTubeStateEnded, videoPlay, videoSeek]

/-- Witness for C3 at concrete inputs: a store holding a resume point at
30 seconds for identity vid1, a local video at 30 seconds, a YouTube
player at 7 seconds. -/
theorem ended_clears_progress_seeks_zero_resumes_witness :
    lookupEntry (handleLocalVideoEnded
      ⟨⟨[(storageKey "vid1", Entry.parsed (some 30) (some 1))], false, false, false⟩,
        some ⟨30, true⟩, "vid1"⟩).storage.entries (storageKey "vid1") = none ∧
    (handleLocalVideoEnded
      ⟨⟨[(storageKey "vid1", Entry.parsed (some 30) (some 1))], false, false, false⟩,
        some ⟨30, true⟩, "vid1"⟩).localVideoRef = some ⟨0, true⟩ ∧
    lookupEntry (onYouTubeStateEnded ⟨[], false, false, false⟩ (some ⟨7, true⟩)
      "vid2").1.entries (storageKey "vid2") = none ∧
    (onYouTubeStateEnded ⟨[], false, false, false⟩ (some ⟨7, true⟩) "vid2").2 =
      some ⟨0, true⟩ :=
  ended_clears_progress_seeks_zero_resumes
    ⟨⟨[(storageKey "vid1", Entry.parsed (some 30) (some 1))], false, false, false⟩,
      some ⟨30, true⟩, "vid1"⟩
    ⟨30, true⟩ ⟨[], false, false, false⟩ ⟨7, true⟩ "vid2" rfl rfl rfl

/-- C4 fails as stated on the canonical explicit click player: its pause
handler immediately resumes playback. At a concrete paused state the
local pause handler returns the video playing again. -/
theorem explicit_variant_pause_autoresumes :
    (handleLocalVideoPause 1000
      ⟨⟨[], false, false, false⟩, some ⟨42, false⟩, "vid1"⟩).localVideoRef =
      some ⟨42, true⟩ := by
  simp [handleLocalVideoPause, videoPlay, saveProgress, saveProgressBody, storageSetItem]

/-- C4 amended: in the canonical explicit click player too, a pause
event is followed by an automatic resume: the local pause handler and
the YouTube PAUSED branch both save the current position (when an
identity is set) and then immediately call play, so pause driven auto
resume is present in this variant as well, not only in the ambient loop
variants. -/
theorem pause_saves_progress_and_autoresumes
    (c : LocalPlayerCtx) (v : VideoEl) (now : ℚ) (st : Storage) (p : VideoEl) (pid : String)
    (href : c.localVideoRef = some v) :
    (handleLocalVideoPause now c).localVideoRef = some (videoPlay v) ∧
    (c.currentVideoId ≠ "" →
      (handleLocalVideoPause now c).storage =
        saveProgress c.storage c.currentVideoId v.currentTime now) ∧
    (onYouTubeStatePaused now st (some p) pid).2 = some (videoPlay p) ∧
    (pid ≠ "" →
      (onYouTubeStatePaused now st (some p) pid).1 = saveProgress st pid p.currentTime now) := by
  refine ⟨?_, ?_, ?_, ?_⟩
  · simp [handleLocalVideoPause, href]
  · intro hid
    simp [handleLocalVideoPause, href, hid]
  · simp [onYouTubeStatePaused]
  · intro hid
    simp [onYouTubeStatePaused, hid]

/-- Witness for C4 amended at concrete inputs: a paused local video at
42 seconds resumes and its position is saved; a paused YouTube player at
7 seconds resumes and its position is saved. -/
theorem pause_saves_progress_and_autoresumes_witness :
    (handleLocalVideoPause 1000
      ⟨⟨[], false, false, false⟩, some ⟨42, false⟩, "vid1"⟩).localVideoRef =
      some (videoPlay ⟨42, false⟩) ∧
    (handleLocalVideoPause 1000
      ⟨⟨[], false, false, false⟩, some ⟨42, false⟩, "vid1"⟩).storage =
      saveProgress ⟨[], false, false, false⟩ "vid1" 42 1000 ∧
    (onYouTubeStatePaused 1000 ⟨[], false, false, false⟩ (some ⟨7, false⟩) "vid2").2 =
      some (videoPlay ⟨7, false⟩) ∧
    (onYouTubeStatePaused 1000 ⟨[], false, false, false⟩ (some ⟨7, false⟩) "vid2").1 =
      saveProgress ⟨[], false, false, false⟩ "vid2" 7 1000 := by
  have h := pause_saves_progress_and_autoresumes
    ⟨⟨[], false, false, false⟩, some ⟨42, false⟩, "vid1"⟩ ⟨42, false⟩ 1000
    ⟨[], false, false, false⟩ ⟨7, false⟩ "vid2" rfl
  exact ⟨h.1, h.2.1 (by decide), h.2.2.1, h.2.2.2 (by decide)⟩

theorem memNat_filter_ne (l : List Nat) (id : Nat) :
    memNat id (List.filter (fun x => x != id) l) = false := by
  induction l with
  | nil => rfl
  | cons a t ih =>
    by_cases h : a = id
    · simpa [List.filter_cons, h] using ih
    · simpa [List.filter_cons, h, memNat] using ih

theorem memNat_filter_of_not_mem (l : List Nat) (p : Nat → Bool) (id : Nat)
    (h : memNat id l = false) : memNat id (List.filter p l) = false := by
  induction l with
  | nil => rfl
  | cons a t ih =>
    simp only [memNat, Bool.or_eq_false_iff] at h
    cases hp : p a
    · simpa [List.filter_cons, hp] using ih h.2
    · simpa [List.filter_cons, hp, memNat, h.1] using ih h.2

theorem memNat_clearIfSet_of_not_mem (r : Option Nat) (e : TimerEnv) (id : Nat)
    (h : memNat id e.live = false) : memNat id (clearIfSet r e).live = false := by
  cases r with
  | none => exact h
  | some i => exact memNat_filter_of_not_mem e.live _ id h

theorem timerLive_clearIfSet_self (r : Option Nat) (e : TimerEnv) :
    timerLive r (clearIfSet r e) = false := by
  cases r with
  | none => rfl
  | some i => exact memNat_filter_ne e.live i

/-- C8: after the component unmounts, every effect cleanup has run: the
unlock poll interval, the progress save interval and the hud overlay
timeout held by the refs are no longer scheduled, the beforeunload
listener is removed, and therefore advancing time by any number of
further periods produces zero additional progress store writes and zero
additional unlock callback invocations. -/
theorem teardown_clears_timers_and_listeners (r : ControllerRefs) (e : TimerEnv)
    (registered : Bool) (n : Nat) :
    storeWritesOver r (unmountTeardown r e) n = 0 ∧
    unlockCallsOver r (unmountTeardown r e) n = 0 ∧
    timerLive r.hudOverlayTimeout (unmountTeardown r e) = false ∧
    beforeUnloadCleanup registered = false := by
  refine ⟨?_, ?_, ?_, rfl⟩
  · have hlive : timerLive r.saveProgressInterval (unmountTeardown r e) = false := by
      unfold unmountTeardown trackingEffectCleanup
      exact timerLive_clearIfSet_self r.saveProgressInterval _
    simp [storeWritesOver, hlive]
  · have hlive : timerLive r.progressInterval (unmountTeardown r e) = false := by
      unfold unmountTeardown trackingEffectCleanup
      cases hp : r.progressInterval with
      | none => rfl
      | some i =>
        simp only [timerLive]
        apply memNat_clearIfSet_of_not_mem
        exact timerLive_clearIfSet_self (some i) _
    simp [unlockCallsOver, hlive]
  · unfold unmountTeardown trackingEffectCleanup mountEffectCleanup
    cases hh : r.hudOverlayTimeout with
    | none => rfl
    | some i =>
      simp only [timerLive]
      apply memNat_clearIfSet_of_not_mem
      apply memNat_clearIfSet_of_not_mem
      apply memNat_clearIfSet_of_not_mem
      exact timerLive_clearIfSet_self (some i) e

/-- C9: getYouTubeVideoId returns either none or a string of exactly
eleven characters, because the extractor keeps group seven of its
pattern only when that captured segment has length eleven; every
playback identity derived for the YouTube backend therefore has length
eleven. -/
theorem getYouTubeVideoId_length_eleven (url : String) (id2 : String)
    (h : getYouTubeVideoId url = some id2) : id2.length = 11 := by
  unfold getYouTubeVideoId at h
  cases hs : scanAlt url.data with
  | none => rw [hs] at h; exact absurd h (by simp)
  | some rest =>
    rw [hs] at h
    simp only at h
    split at h
    · rename_i hc
      cases h
      simpa [String.length] using hc
    · exact absurd h (by simp)

/-- Witness for C9 at a concrete input: a standard watch url yields an
eleven character id. -/
theorem getYouTubeVideoId_length_eleven_witness :
    getYouTubeVideoId "https://www.youtube.com/watch?v=dQw4w9WgXcQ" = some "dQw4w9WgXcQ" ∧
    (String.mk [ 'd', 'Q', 'w', '4', 'w', '9', 'W', 'g', 'X', 'c', 'Q' ]).length = 11 :=
  ⟨by decide,
   getYouTubeVideoId_length_eleven "https://www.youtube.com/watch?v=dQw4w9WgXcQ"
     (String.mk [ 'd', 'Q', 'w', '4', 'w', '9', 'W', 'g', 'X', 'c', 'Q' ]) (by decide)⟩
